import Mathlib

/-
Shallow embedding of the Mitzi MIDI monitor (src/midi.c): the USB-MIDI
packet decoder, the status-byte classifier, the fixed-capacity message
history, the display formatter, and the per-event state transition of the
main loop.  Machine integers (uint8_t, int16_t) are modelled as Nat/Int
with explicit wraparound where the C code can overflow; snprintf output is
modelled as the full (untruncated) string, which is faithful because every
formatted line fits the 32-byte buffers used by the C code for all
byte-valued inputs.
-/

set_option autoImplicit false

namespace MitziMidi

/-! ## Constants and data model (src/midi.c lines 9-40) -/

def MAX_MIDI_MESSAGES : Nat := 8

-- MidiMessageType enum values.  parse_midi_status stores `status & 0xF0`
-- (which for status < 0x80 is not a declared enumerator) into this field,
-- so the type is modelled as the underlying integer value.
def MidiNoteOff : Nat := 0x80
def MidiNoteOn : Nat := 0x90
def MidiPolyAftertouch : Nat := 0xA0
def MidiControlChange : Nat := 0xB0
def MidiProgramChange : Nat := 0xC0
def MidiChannelAftertouch : Nat := 0xD0
def MidiPitchBend : Nat := 0xE0
def MidiSystemMessage : Nat := 0xF0

structure MidiMessage where
  status : Nat
  data1 : Nat
  data2 : Nat
  channel : Nat
  type : Nat
  timestamp : Nat
deriving Repr, DecidableEq

structure MidiState where
  messages : List MidiMessage
  message_count : Nat
  display_offset : Nat
  usb_connected : Bool
  last_message_time : Nat
deriving Repr, DecidableEq

-- `memset(app->state, 0, sizeof(MidiState))` zero-fills every field,
-- including the 8 message slots; init_usb_midi returns false.
def zeroMessage : MidiMessage :=
  { status := 0, data1 := 0, data2 := 0, channel := 0, type := 0, timestamp := 0 }

def initState : MidiState :=
  { messages := List.replicate MAX_MIDI_MESSAGES zeroMessage
    message_count := 0
    display_offset := 0
    usb_connected := false
    last_message_time := 0 }

/-! ## parse_midi_status (lines 68-78) -/

def parse_midi_status (status : Nat) : Nat × Nat :=
  if status < 0xF0 then
    (status &&& 0xF0, status &&& 0x0F)
  else
    (MidiSystemMessage, 0)

/-! ## add_midi_message (lines 81-95)

The C function either bumps the count (when below capacity) or shifts the
array down (when full), and in both branches then writes the new message
into slot 0 and refreshes last_message_time; the common tail is merged
into each branch here.  `shiftDown` is the loop
`for(i = MAX-1; i > 0; i--) messages[i] = messages[i-1]`:
slot 0 is left as is and slot i receives the old slot i-1. -/

def shiftDown (l : List MidiMessage) : List MidiMessage :=
  match l with
  | [] => []
  | a :: rest => a :: List.take rest.length (a :: rest)

-- `messages[0] = *message`
def setHead (l : List MidiMessage) (m : MidiMessage) : List MidiMessage :=
  match l with
  | [] => []
  | _ :: rest => m :: rest

def add_midi_message (state : MidiState) (message : MidiMessage) (now : Nat) : MidiState :=
  if state.message_count < MAX_MIDI_MESSAGES then
    { state with
        message_count := state.message_count + 1
        messages := setHead state.messages message
        last_message_time := now }
  else
    { state with
        messages := setHead (shiftDown state.messages) message
        last_message_time := now }

/-! ## snprintf conversion helpers

The C code formats with "%02d", "%03d", "%+05d", "%02X" and "%d"; these
render the same strings for the argument ranges that occur (all decimal
arguments are promoted uint8_t/int16_t values, all hex arguments are a
single byte). -/

def padZero (w : Nat) (s : String) : String :=
  String.mk (List.replicate (w - s.length) '0') ++ s

-- "%02d"
def fmt02d (n : Nat) : String := padZero 2 (toString n)

-- "%03d"
def fmt03d (n : Nat) : String := padZero 3 (toString n)

-- "%+05d": a forced sign followed by the magnitude zero-padded so that the
-- whole field is at least five characters wide.
def fmt05dSigned (n : Int) : String :=
  if n < 0 then "-" ++ padZero 4 (toString n.natAbs)
  else "+" ++ padZero 4 (toString n.natAbs)

def hexDigit (n : Nat) : Char :=
  Char.ofNat (if n < 10 then n + 48 else n + 55)

-- "%02X" applied to one byte (two uppercase hex digits)
def fmt02X (n : Nat) : String :=
  String.mk [hexDigit (n / 16 % 16), hexDigit (n % 16)]

/-! ## midi_note_to_string (lines 98-103)

`uint8_t octave = (note / 12) - 1;` computes the subtraction as an int and
truncates it into a uint8_t, so for notes 0-11 the value -1 wraps to 255;
snprintf "%d" then prints the promoted uint8_t value. -/

def note_names : List String :=
  ["C", "C#", "D", "D#"] ++ ["E", "F", "F#", "G"] ++ ["G#", "A", "A#", "B"]

def midi_note_to_string (note : Nat) : String :=
  let octave : Nat := (((note : Int) / 12 - 1) % 256).toNat
  let note_index : Nat := note % 12
  (note_names.getD note_index "") ++ toString octave

/-! ## format_midi_message (lines 106-166) -/

-- `int16_t bend = ((msg->data2 << 7) | msg->data1) - 8192;` — the value is
-- in [-8192, 24703] for byte inputs, so the int16_t truncation never acts.
def bendValue (data1 data2 : Nat) : Int :=
  (((data2 <<< 7) ||| data1 : Nat) : Int) - 8192

def format_midi_message (msg : MidiMessage) : String :=
  if msg.type = MidiNoteOn then
    if msg.data2 > 0 then
      "NoteOn  Ch" ++ fmt02d (msg.channel + 1) ++ " " ++ midi_note_to_string msg.data1
        ++ " Vel" ++ fmt03d msg.data2
    else
      "NoteOff Ch" ++ fmt02d (msg.channel + 1) ++ " " ++ midi_note_to_string msg.data1
  else if msg.type = MidiNoteOff then
    "NoteOff Ch" ++ fmt02d (msg.channel + 1) ++ " " ++ midi_note_to_string msg.data1
      ++ " Vel" ++ fmt03d msg.data2
  else if msg.type = MidiControlChange then
    "CC      Ch" ++ fmt02d (msg.channel + 1) ++ " #" ++ fmt03d msg.data1
      ++ "=" ++ fmt03d msg.data2
  else if msg.type = MidiProgramChange then
    "ProgChg Ch" ++ fmt02d (msg.channel + 1) ++ " Prg" ++ fmt03d msg.data1
  else if msg.type = MidiPitchBend then
    "PitchBd Ch" ++ fmt02d (msg.channel + 1) ++ " " ++ fmt05dSigned (bendValue msg.data1 msg.data2)
  else if msg.type = MidiChannelAftertouch then
    "ChPress Ch" ++ fmt02d (msg.channel + 1) ++ " Val" ++ fmt03d msg.data1
  else if msg.type = MidiPolyAftertouch then
    "PolyAT  Ch" ++ fmt02d (msg.channel + 1) ++ " " ++ midi_note_to_string msg.data1
      ++ " P" ++ fmt03d msg.data2
  else if msg.type = MidiSystemMessage then
    "System  0x" ++ fmt02X msg.status
  else
    "Unknown 0x" ++ fmt02X msg.status

/-! ## usb_midi_rx_callback (lines 246-277)

The loop `for(i = 0; i + 3 < length; i += 4)` consumes full 4-byte strides
and silently drops a partial tail; `cin = (data[i] >> 4) & 0x0F` reads the
HIGH nibble of byte 0 and a stride with cin = 0 is skipped.  Each surviving
stride builds one MidiMessage (status, data1, data2, timestamp from the
tick clock, type/channel from parse_midi_status) and queues it; the list of
queued messages is the function's observable output here. -/

def decodeMessage (status data1 data2 ts : Nat) : MidiMessage :=
  { status := status
    data1 := data1
    data2 := data2
    channel := (parse_midi_status status).2
    type := (parse_midi_status status).1
    timestamp := ts }

def usb_midi_rx_callback : List Nat → Nat → List MidiMessage
  | b0 :: b1 :: b2 :: b3 :: rest, now =>
      let cin := (b0 >>> 4) &&& 0x0F
      if cin = 0 then usb_midi_rx_callback rest now
      else decodeMessage b1 b2 b3 now :: usb_midi_rx_callback rest now
  | _, _ => []

/-! ## Main-loop event handling (lines 329-389) -/

inductive InputType where
  | Press
  | Repeat
  | Release
deriving Repr, DecidableEq

inductive InputKey where
  | Up
  | Down
  | Ok
  | Back
  | Left
  | Right
deriving Repr, DecidableEq

inductive MidiEvent where
  | key (t : InputType) (k : InputKey)
  | midi (m : MidiMessage) (now : Nat)
  | usbStatus (connected : Bool)
deriving Repr, DecidableEq

-- The EventTypeKey switch body; InputKeyBack only clears the `running`
-- flag and InputKeyLeft/Right hit the default case, so the state is
-- unchanged for them.
def handle_key (s : MidiState) (k : InputKey) : MidiState :=
  match k with
  | .Up =>
      if s.display_offset > 0 then
        { s with display_offset := s.display_offset - 1 }
      else s
  | .Down =>
      if s.display_offset + 4 < s.message_count then
        { s with display_offset := s.display_offset + 1 }
      else s
  | .Ok => { s with message_count := 0, display_offset := 0 }
  | _ => s

def handle_event (s : MidiState) (e : MidiEvent) : MidiState :=
  match e with
  | .key t k =>
      if t = InputType.Press ∨ t = InputType.Repeat then handle_key s k else s
  | .midi m now => add_midi_message s m now
  | .usbStatus c => { s with usb_connected := c }

def run_events (s : MidiState) (events : List MidiEvent) : MidiState :=
  events.foldl handle_event s

/-! ## render_callback history window (lines 201-211) -/

def render_window (s : MidiState) : List String :=
  let messages_to_show := if s.message_count < 4 then s.message_count else 4
  (List.range messages_to_show).filterMap fun i =>
    let msg_index := i + s.display_offset
    if msg_index < s.message_count then
      some (format_midi_message (s.messages.getD msg_index zeroMessage))
    else none

/-! ## Concrete test data -/

def testMsg (k : Nat) : MidiMessage :=
  { status := 0x90, data1 := k, data2 := 100, channel := 0, type := MidiNoteOn, timestamp := k }

def afterThreeInserts : MidiState :=
  add_midi_message (add_midi_message (add_midi_message initState (testMsg 1) 1) (testMsg 2) 2)
    (testMsg 3) 3

def afterNineInserts : MidiState :=
  (List.range 9).foldl (fun st k => add_midi_message st (testMsg (k + 1)) (k + 1)) initState

/-! ## Scroll-clamp invariant helpers -/

-- The display offset is either zero or leaves a full 4-line window inside
-- the valid prefix of the history.
def scroll_ok (s : MidiState) : Prop :=
  s.display_offset = 0 ∨ s.display_offset + 4 ≤ s.message_count

theorem handle_key_scroll_ok (s : MidiState) (k : InputKey) (h : scroll_ok s) :
    scroll_ok (handle_key s k) := by
  unfold scroll_ok at h ⊢
  cases k with
  | Up =>
    by_cases hc : s.display_offset > 0
    · simp only [handle_key, if_pos hc]
      omega
    · simp only [handle_key, if_neg hc]
      exact h
  | Down =>
    by_cases hc : s.display_offset + 4 < s.message_count
    · simp only [handle_key, if_pos hc]
      omega
    · simp only [handle_key, if_neg hc]
      exact h
  | Ok => exact Or.inl rfl
  | Back => exact h
  | Left => exact h
  | Right => exact h

theorem handle_event_scroll_ok (s : MidiState) (e : MidiEvent) (h : scroll_ok s) :
    scroll_ok (handle_event s e) := by
  cases e with
  | key t k =>
    by_cases ht : t = InputType.Press ∨ t = InputType.Repeat
    · simpa only [handle_event, if_pos ht] using handle_key_scroll_ok s k h
    · simpa only [handle_event, if_neg ht] using h
  | midi m now =>
    unfold scroll_ok at h ⊢
    by_cases hc : s.message_count < MAX_MIDI_MESSAGES
    · simp only [handle_event, add_midi_message, if_pos hc]
      omega
    · simp only [handle_event, add_midi_message, if_neg hc]
      omega
  | usbStatus c => exact h

theorem run_events_scroll_ok (events : List MidiEvent) (s : MidiState) (h : scroll_ok s) :
    scroll_ok (run_events s events) := by
  induction events generalizing s with
  | nil => exact h
  | cons e rest ih => exact ih (handle_event s e) (handle_event_scroll_ok s e h)

/-! ## Claim theorems -/

/-- C1: the end-to-end claim fails on the code.  The callback reads the
Code Index Number from the HIGH nibble of byte 0, so for the packet
0x09 0x90 0x3C 0x64 it computes cin = 0 and skips the stride, producing no
message at all; the NoteOn message the claim expects would indeed format
as "NoteOn  Ch01 C4 Vel100", so only the framing-nibble extraction is at
fault. -/
theorem usb_packet_cin_bug :
    usb_midi_rx_callback [0x09, 0x90, 0x3C, 0x64] 7 = [] ∧
    format_midi_message (decodeMessage 0x90 0x3C 0x64 7) = "NoteOn  Ch01 C4 Vel100" := by
  decide

/-- C2: the shift-on-insert claim fails on the code.  add_midi_message
shifts the array only in the full branch, so the first eight inserts each
overwrite slot 0; after nine inserts of testMsg 1 .. testMsg 9 into the
empty initial state the buffer holds testMsg 9, testMsg 8 and six
zero-filled slots instead of the eight most recent messages. -/
theorem history_eviction_bug :
    afterNineInserts.message_count = 8 ∧
    afterNineInserts.messages =
      [testMsg 9, testMsg 8, zeroMessage, zeroMessage,
       zeroMessage, zeroMessage, zeroMessage, zeroMessage] ∧
    afterNineInserts.messages ≠
      [testMsg 9, testMsg 8, testMsg 7, testMsg 6,
       testMsg 5, testMsg 4, testMsg 3, testMsg 2] := by
  decide

/-- C3: the ordering invariant fails on the code.  After three inserts with
timestamps 1, 2, 3 into the zero-initialised state, count is 3 but the
entries at indices 1 and 2 are the untouched zero-timestamp slots (no shift
happens while the buffer is below capacity), so the entries of the valid
prefix are not strictly descending in receivedAt. -/
theorem history_order_bug :
    afterThreeInserts.message_count = 3 ∧
    (afterThreeInserts.messages.getD 0 zeroMessage).timestamp = 3 ∧
    (afterThreeInserts.messages.getD 1 zeroMessage).timestamp = 0 ∧
    (afterThreeInserts.messages.getD 2 zeroMessage).timestamp = 0 ∧
    ¬((afterThreeInserts.messages.getD 2 zeroMessage).timestamp <
        (afterThreeInserts.messages.getD 1 zeroMessage).timestamp) := by
  decide

/-- C4: note-name rendering fails on the code for notes 0-11.  The octave
is computed in a uint8_t, so (0 / 12) - 1 wraps to 255 and note 0 renders
as "C255" rather than with octave -1; notes 60 and 69 render as the claim
says. -/
theorem note_name_octave_bug :
    midi_note_to_string 0 = "C255" ∧
    midi_note_to_string 0 ≠ "C-1" ∧
    midi_note_to_string 60 = "C4" ∧
    midi_note_to_string 69 = "A4" := by
  decide

/-- C5: status classification is total over the byte range: every status in
0x80-0xEF maps to kind = status AND 0xF0 and channel = status AND 0x0F, and
every status at least 0xF0 maps to SystemMessage with channel 0. -/
theorem parse_midi_status_spec (s : Nat) :
    (0x80 ≤ s → s ≤ 0xEF → parse_midi_status s = (s &&& 0xF0, s &&& 0x0F)) ∧
    (0xF0 ≤ s → parse_midi_status s = (MidiSystemMessage, 0)) := by
  constructor
  · intro _ h2
    unfold parse_midi_status
    rw [if_pos (by omega)]
  · intro h
    unfold parse_midi_status
    rw [if_neg (by omega)]

theorem parse_midi_status_spec_witness :
    parse_midi_status 0x95 = (0x90, 0x05) ∧
    parse_midi_status 0xF8 = (MidiSystemMessage, 0) :=
  ⟨((parse_midi_status_spec 0x95).1 (by decide) (by decide)).trans (by decide),
   (parse_midi_status_spec 0xF8).2 (by decide)⟩

/-- C6: every status byte below 0x80 decodes without fault to a message
whose type is none of the recognized kinds (the classifier yields the raw
upper nibble, which no formatter case matches), and the formatter renders
it as "Unknown 0x" followed by the status byte in uppercase hex. -/
theorem unknown_status_spec (s d1 d2 ts : Nat) (hs : s < 0x80) :
    (decodeMessage s d1 d2 ts).type = s &&& 0xF0 ∧
    (decodeMessage s d1 d2 ts).type ∉
      [MidiNoteOff, MidiNoteOn, MidiPolyAftertouch, MidiControlChange,
       MidiProgramChange, MidiChannelAftertouch, MidiPitchBend, MidiSystemMessage] ∧
    format_midi_message (decodeMessage s d1 d2 ts) = "Unknown 0x" ++ fmt02X s := by
  have htype : (decodeMessage s d1 d2 ts).type = s &&& 0xF0 := by
    simp only [decodeMessage, parse_midi_status]
    rw [if_pos (by omega)]
  have hlt : s &&& 0xF0 < 0x80 := lt_of_le_of_lt Nat.and_le_left hs
  refine ⟨htype, ?_, ?_⟩
  · simp only [htype, List.mem_cons, List.not_mem_nil, or_false, MidiNoteOff, MidiNoteOn,
      MidiPolyAftertouch, MidiControlChange, MidiProgramChange,
      MidiChannelAftertouch, MidiPitchBend, MidiSystemMessage]
    rintro (hm | hm | hm | hm | hm | hm | hm | hm) <;> omega
  · simp only [format_midi_message, htype, MidiNoteOff, MidiNoteOn,
      MidiPolyAftertouch, MidiControlChange, MidiProgramChange,
      MidiChannelAftertouch, MidiPitchBend, MidiSystemMessage]
    repeat rw [if_neg (by omega)]
    simp only [decodeMessage]

theorem unknown_status_spec_witness :
    format_midi_message (decodeMessage 0x7F 10 20 3) = "Unknown 0x7F" :=
  ((unknown_status_spec 0x7F 10 20 3 (by decide)).2.2).trans (by decide)

/-- C7: a message stored with kind NoteOn formats as a NoteOn line when its
velocity byte is positive and as a NoteOff line (without velocity) when the
velocity byte is zero, while the decoder assigns kind NoteOn from the
status byte alone, independent of data2 — the reclassification exists only
in the formatter. -/
theorem noteon_format_spec (msg : MidiMessage) (h : msg.type = MidiNoteOn) :
    (msg.data2 > 0 → format_midi_message msg =
      "NoteOn  Ch" ++ fmt02d (msg.channel + 1) ++ " " ++ midi_note_to_string msg.data1
        ++ " Vel" ++ fmt03d msg.data2) ∧
    (msg.data2 = 0 → format_midi_message msg =
      "NoteOff Ch" ++ fmt02d (msg.channel + 1) ++ " " ++ midi_note_to_string msg.data1) ∧
    (∀ s d1 d2 ts : Nat, s &&& 0xF0 = MidiNoteOn → s < 0xF0 →
      (decodeMessage s d1 d2 ts).type = MidiNoteOn) := by
  refine ⟨?_, ?_, ?_⟩
  · intro hv
    simp [format_midi_message, h, hv]
  · intro hz
    simp [format_midi_message, h, hz]
  · intro s d1 d2 ts hmask hlt
    simp only [decodeMessage, parse_midi_status]
    rw [if_pos hlt]
    exact hmask

theorem noteon_format_spec_witness :
    format_midi_message
        { status := 0x90, data1 := 60, data2 := 100, channel := 0, type := 0x90,
          timestamp := 0 } = "NoteOn  Ch01 C4 Vel100" :=
  ((noteon_format_spec
      { status := 0x90, data1 := 60, data2 := 100, channel := 0, type := 0x90,
        timestamp := 0 } rfl).1 (by decide)).trans (by decide)

/-- C8: a PitchBend message formats as its channel followed by the signed
14-bit bend value (data2 shifted left 7 bits, ORed with data1, minus 8192)
rendered with an explicit sign; the bend value at the three corner inputs
is -8192, 0 and 8191. -/
theorem pitch_bend_spec (msg : MidiMessage) (h : msg.type = MidiPitchBend) :
    format_midi_message msg =
      "PitchBd Ch" ++ fmt02d (msg.channel + 1) ++ " "
        ++ fmt05dSigned (bendValue msg.data1 msg.data2) ∧
    bendValue 0 0 = -8192 ∧ bendValue 0 64 = 0 ∧ bendValue 127 127 = 8191 := by
  refine ⟨?_, by decide, by decide, by decide⟩
  simp only [format_midi_message, h, MidiNoteOff, MidiNoteOn, MidiPolyAftertouch,
    MidiControlChange, MidiProgramChange, MidiChannelAftertouch, MidiPitchBend]
  norm_num

theorem pitch_bend_spec_witness :
    format_midi_message
        { status := 0xE0, data1 := 0, data2 := 64, channel := 0, type := 0xE0,
          timestamp := 0 } = "PitchBd Ch01 +0000" :=
  (pitch_bend_spec
      { status := 0xE0, data1 := 0, data2 := 64, channel := 0, type := 0xE0,
        timestamp := 0 } rfl).1.trans (by decide)

/-- C9 counterexample: the claim as stated requires displayOffset + 4 never
to exceed count, but after a single insertion into the initial state
count = 1 while displayOffset + 4 = 4. -/
theorem scroll_clamp_counterexample :
    (run_events initState [MidiEvent.midi (testMsg 1) 1]).message_count <
      (run_events initState [MidiEvent.midi (testMsg 1) 1]).display_offset + 4 := by
  decide

/-- C9 (amended): across every sequence of input and insertion events from
the initial state, displayOffset is either 0 or leaves the 4-line window
inside the valid prefix (displayOffset + 4 ≤ count, so it never exceeds
count once the offset is positive, and can never go negative); an Up event
at displayOffset = 0 and a Down event at the lower boundary leave
displayOffset unchanged. -/
theorem scroll_clamp_amended (events : List MidiEvent) :
    ((run_events initState events).display_offset = 0 ∨
      (run_events initState events).display_offset + 4 ≤
        (run_events initState events).message_count) ∧
    (∀ s : MidiState, s.display_offset = 0 →
      (handle_event s (MidiEvent.key InputType.Press InputKey.Up)).display_offset = 0) ∧
    (∀ s : MidiState, ¬ s.display_offset + 4 < s.message_count →
      (handle_event s (MidiEvent.key InputType.Press InputKey.Down)).display_offset =
        s.display_offset) := by
  refine ⟨run_events_scroll_ok events initState (Or.inl rfl), ?_, ?_⟩
  · intro s h0
    simp [handle_event, handle_key, h0]
  · intro s hc
    simp [handle_event, handle_key, if_neg hc]

theorem scroll_clamp_amended_witness :
    (handle_event initState (MidiEvent.key InputType.Press InputKey.Up)).display_offset = 0 :=
  (scroll_clamp_amended []).2.1 initState rfl

/-- C10: handling a MIDI arrival event changes at most the messages array,
the message count and the last-message time: the display offset and the
USB-connected flag of the resulting state are those of the input state,
and the whole resulting state equals the input state with only those three
fields replaced. -/
theorem midi_event_frame_effect (s : MidiState) (m : MidiMessage) (t : Nat) :
    (handle_event s (MidiEvent.midi m t)).display_offset = s.display_offset ∧
    (handle_event s (MidiEvent.midi m t)).usb_connected = s.usb_connected ∧
    handle_event s (MidiEvent.midi m t) =
      { s with
          messages := (handle_event s (MidiEvent.midi m t)).messages
          message_count := (handle_event s (MidiEvent.midi m t)).message_count
          last_message_time := (handle_event s (MidiEvent.midi m t)).last_message_time } := by
  by_cases hc : s.message_count < MAX_MIDI_MESSAGES
  · simp [handle_event, add_midi_message, if_pos hc]
  · simp [handle_event, add_midi_message, if_neg hc]

theorem midi_event_frame_effect_witness :
    (handle_event initState (MidiEvent.midi (testMsg 1) 5)).display_offset =
        initState.display_offset ∧
    (handle_event initState (MidiEvent.midi (testMsg 1) 5)).usb_connected =
        initState.usb_connected :=
  ⟨(midi_event_frame_effect initState (testMsg 1) 5).1,
   (midi_event_frame_effect initState (testMsg 1) 5).2.1⟩

end MitziMidi
